import Mathlib

/-!
Verification of the Campus Backups Manager core
(`src/app/api_utils.py` and `src/app/ticket_app.py`).

The Python code is shallowly embedded:
  * directory listings become explicit lists of entry names (with an
    `isDir` flag where the code checks `os.path.isdir`);
  * HTTP responses become records holding the status code and the parsed
    `result` array of the JSON envelope;
  * timestamps become epoch seconds (`Int`); the code subtracts two
    timezone-aware datetimes, which is exactly the absolute elapsed time,
    so the fixed America/New_York zone plays no role in the comparison;
  * fallible code (the unguarded `matching_folders[0]` indexing) returns
    `Except`;
  * the `exit()` call in `fetch_ticket_info_task`'s exception handler is
    modelled by a distinct `CycleResult.exited` outcome.
-/

namespace CBM

/-! ## Filesystem model -/

/-- One entry of a directory listing, as seen by `os.listdir` plus the
`os.path.isdir` check performed by the code. -/
structure FsEntry where
  name : String
  isDir : Bool
deriving DecidableEq, Repr

/-- `needle` occurs contiguously inside `hay` — Python's `needle in hay`
substring test on strings, over explicit character lists. -/
def containsSub (needle hay : List Char) : Bool :=
  match hay with
  | [] => needle.isEmpty
  | _ :: t => needle.isPrefixOf hay || containsSub needle t

/-! ## Folder Scanner (`api_utils.scan_directory_for_tickets`) -/

/-- The regex `TKT\d{7}` matches at the head of `cs`: literal `TKT`
followed by (at least) seven digit characters. -/
def isTicketAt (cs : List Char) : Bool :=
  ['T', 'K', 'T'].isPrefixOf cs
    && ((cs.drop 3).take 7).length == 7
    && ((cs.drop 3).take 7).all Char.isDigit

/-- The ten characters the regex match consumes at the head of `cs`. -/
def ticketAt (cs : List Char) : Option String :=
  if isTicketAt cs then some (String.mk (cs.take 10)) else none

/-- `re.search` of `TKT\d{7}`: leftmost match in the character list, or
none.  The pattern has no backtracking, so leftmost head-match scanning is
exact. -/
def searchTicket : List Char → Option String
  | [] => none
  | c :: cs =>
    match ticketAt (c :: cs) with
    | some s => some s
    | none => searchTicket cs

/-- `api_utils.scan_directory_for_tickets`: keep each immediate
subdirectory whose name contains a `TKT\d{7}` match, extracting the first
match; order of the listing is preserved, duplicates are NOT removed. -/
def scan_directory_for_tickets (dir : List FsEntry) : List String :=
  dir.filterMap (fun e => if e.isDir then searchTicket e.name.data else none)

/-! ## Retention verdict (`api_utils.fetch_ticket_info`, lines 258-266) -/

/-- `timedelta(weeks=2)` in seconds. -/
def twoWeeksSeconds : Int := 14 * 86400

/-- Lines 258-266 of `api_utils.py`: if the closure time is present, the
verdict is `now - closed > timedelta(weeks=2) and not has_tag`; otherwise
it is `False`.  Aware-datetime subtraction is absolute elapsed time, so
epoch seconds model it exactly. -/
def ready_for_deletion (closedAtLocal : Option Int) (hasTag : Bool) (now : Int) : Bool :=
  match closedAtLocal with
  | none => false
  | some t => (now - t > twoWeeksSeconds) && !hasTag

/-! ## Remote Metadata Client (`api_utils.py`) -/

/-- An HTTP response as the code consumes it: the status code, and the
`result` array of the parsed JSON envelope (only inspected when the
status is 200). -/
structure HttpResponse (α : Type) where
  status : Nat
  result : List α
deriving DecidableEq, Repr

/-- A `sys_user` record as consumed: `user_name` field, `none` when the
field is missing (`.get('user_name', 'N/A')`). -/
structure UserRec where
  user_name : Option String
deriving DecidableEq, Repr

/-- `api_utils.fetch_username_info`: on a 200 response take the first
record's `user_name` defaulting to `"N/A"`; an empty result or a
non-success status yields the `"N/A"` sentinel. -/
def fetch_username_info (resp : HttpResponse UserRec) : String :=
  if resp.status == 200 then
    match resp.result with
    | [] => "N/A"
    | u :: _ => u.user_name.getD "N/A"
  else "N/A"

/-- A `label_entry` record as consumed: the `entry['label']['value']`
string. -/
structure LabelEntry where
  labelValue : String
deriving DecidableEq, Repr

/-- The fixed sys_id of the "Ready for Pickup" retention-hold label. -/
def READY_FOR_PICKUP_ID : String := "0874ad561b6b9d147881db13dd4bcb96"

/-- `api_utils.fetch_label_info`: on a 200 response, true iff some entry's
label value equals the fixed tag id (the loop breaks at the first hit);
a non-success status leaves the flag false. -/
def fetch_label_info (resp : HttpResponse LabelEntry) : Bool :=
  if resp.status == 200 then
    resp.result.any (fun e => e.labelValue == READY_FOR_PICKUP_ID)
  else false

/-- Python exceptions the embedded code can raise. -/
inductive PyError
  | indexError
deriving DecidableEq, Repr

/-- `api_utils.find_matching_folders`: filter the backups listing by
substring containment of the ticket number and take element `[0]` —
an `IndexError` when no folder matches. -/
def find_matching_folders (backups : List String) (ticket : String) :
    Except PyError String :=
  match backups.filter (fun f => containsSub ticket.data f.data) with
  | [] => .error .indexError
  | f :: _ => .ok f

/-- A file inside a backup folder: its size and whether `os.path.getsize`
succeeds on it. -/
structure FileEnt where
  size : Nat
  readable : Bool
deriving DecidableEq, Repr

/-- `api_utils.get_folder_size`: sum the sizes of all files in the walk,
skipping files whose size read fails. -/
def get_folder_size (files : List FileEnt) : Nat :=
  files.foldl (fun acc f => if f.readable then acc + f.size else acc) 0

/-- Two-digit zero-padding of a value below 100. -/
def pad2 (n : Nat) : String :=
  if n < 10 then "0" ++ toString n else toString n

/-- Python's `f"\x7bx:.2f\x7d"` for a non-negative value, over exact
rationals: round to hundredths and print two decimals.  (The code rounds
a binary float; on the exact values used here the two agree.) -/
def format2 (q : ℚ) : String :=
  toString ((round (q * 100) : Int).toNat / 100) ++ "."
    ++ pad2 ((round (q * 100) : Int).toNat % 100)

/-- The unit ladder of `api_utils.human_readable_size`. -/
def humanUnits : List String := ["B", "KiB", "MiB", "GiB", "TiB"]

/-- The loop of `human_readable_size`: return at the first unit where the
running value is below 1024, else divide by 1024 and continue; falling
off the end of the unit list returns `None`. -/
def human_readable_size_aux : List String → ℚ → Option String
  | [], _ => none
  | u :: us, q =>
      if q < 1024 then some (format2 q ++ " " ++ u)
      else human_readable_size_aux us (q / 1024)

/-- `api_utils.human_readable_size` on a byte count. -/
def human_readable_size (size : Nat) : Option String :=
  human_readable_size_aux humanUnits (size : ℚ)

/-- The `closed_at` field of an `sc_req_item` record after
`item.get('closed_at', 'N/A')`: missing, present-but-empty, or a
well-formed UTC timestamp (epoch seconds).  The code's string parse and
zone conversion preserve the instant. -/
inductive ClosedAt
  | absent
  | empty
  | time (t : Int)
deriving DecidableEq, Repr

/-- An `sc_req_item` record as consumed by `fetch_ticket_info`. -/
structure ItemRec where
  sys_id : String
  closed_at : ClosedAt
  active : Option String
  closed_by_value : Option String
deriving DecidableEq, Repr

/-- The remote service's responses for one ticket's three lookups; the
user lookup is keyed by the queried `closed_by_id`. -/
structure Remote where
  itemResp : HttpResponse ItemRec
  userResp : String → HttpResponse UserRec
  labelResp : HttpResponse LabelEntry

/-- The global filesystem state `fetch_ticket_info` reads: the listing of
`BACKUPS_LOCATION` and each folder's walked files. -/
structure Fs where
  backups : List String
  files : String → List FileEnt

/-- The dictionary `fetch_ticket_info` returns.  `closed_at_local` is the
parsed closure instant (`none` renders the `'N/A'` string); `folder_size`
is the human-readable string the code stores. -/
structure TicketInfo where
  ticket_number : String
  sys_id : String
  closed_at_local : Option Int
  closed_by_username : String
  has_ready_for_pickup_tag : Bool
  ready_for_deletion : Bool
  folder_size : Option String
  url : String
deriving DecidableEq, Repr

/-- `api_utils.fetch_ticket_info`: a non-200 primary response or an empty
primary result yields `None`; otherwise the record is assembled from the
first item, the label lookup, the username lookup, the retention verdict,
and the size of the first matching folder under `BACKUPS_LOCATION` —
where the unguarded `find_matching_folders` indexing can raise. -/
def fetch_ticket_info (instanceHost : String) (r : Remote) (fs : Fs)
    (now : Int) (ticket : String) : Except PyError (Option TicketInfo) :=
  if r.itemResp.status == 200 then
    match r.itemResp.result with
    | [] => .ok none
    | item :: _ =>
      let hasTag := fetch_label_info r.labelResp
      let closedById :=
        if item.active == some "false" then item.closed_by_value.getD "N/A"
        else "N/A"
      let closedAtLocal : Option Int :=
        match item.closed_at with
        | .time t => some t
        | _ => none
      let ready := ready_for_deletion closedAtLocal hasTag now
      let closedByUsername := fetch_username_info (r.userResp closedById)
      match find_matching_folders fs.backups ticket with
      | .error e => .error e
      | .ok folder =>
          .ok (some ⟨ticket, item.sys_id, closedAtLocal, closedByUsername,
            hasTag, ready,
            human_readable_size (get_folder_size (fs.files folder)),
            "https://" ++ instanceHost ++ "/nav_to.do?uri=sc_req_item.do?sys_id="
              ++ item.sys_id⟩)
  else .ok none

/-! ## Aggregation Pipeline (`ticket_app.TicketApp`) -/

/-- Outcome of one evaluation cycle.  `exited` models the `exit()` call in
`fetch_ticket_info_task`'s exception handler: the process terminates and
no result list is ever delivered to the consumer. -/
inductive CycleResult
  | ok (records : List TicketInfo)
  | exited
deriving DecidableEq, Repr

/-- Whether a per-ticket fetch outcome is a raised exception. -/
def isFatal (r : Except PyError (Option TicketInfo)) : Bool :=
  match r with
  | .error _ => true
  | .ok _ => false

/-- The fan-out of `load_tickets` over `fetch_ticket_info_task`: each
ticket's fetch either raises (handler shows the error screen and calls
`exit()` — the gathered cycle never completes), returns `None` (nothing
appended), or returns a record (appended).  `asyncio.gather` delivers the
list only if no task escaped, so the cycle result is `exited` exactly
when some fetch raised. -/
def run_tasks (fetch : String → Except PyError (Option TicketInfo)) :
    List String → CycleResult
  | [] => .ok []
  | t :: ts =>
    match fetch t with
    | .error _ => .exited
    | .ok none => run_tasks fetch ts
    | .ok (some info) =>
      match run_tasks fetch ts with
      | .exited => .exited
      | .ok rest => .ok (info :: rest)

/-- The per-ticket fetch closure `load_tickets` launches: note it passes
only the ticket number; `fetch_ticket_info` reads the global
`BACKUPS_LOCATION` state `fs`, independent of the scanned directory. -/
def fetchFor (instanceHost : String) (remote : String → Remote) (fs : Fs)
    (now : Int) (t : String) : Except PyError (Option TicketInfo) :=
  fetch_ticket_info instanceHost (remote t) fs now t

/-- `ticket_app.load_tickets`: scan the directory, launch one fetch task
per scanned ticket number, gather. -/
def load_tickets (instanceHost : String) (remote : String → Remote)
    (fs : Fs) (now : Int) (dir : List FsEntry) : CycleResult :=
  run_tasks (fetchFor instanceHost remote fs now)
    (scan_directory_for_tickets dir)

/-! ## Deletion Mover (`api_utils.move_to_deletion_folder`) -/

/-- The on-disk state the mover touches: subdirectory names of
`BACKUPS_LOCATION` (source) and of `DELETION_LOCATION` (dest).  Directory
listings never repeat a name. -/
structure MoveFs where
  source : List String
  dest : List String
deriving DecidableEq, Repr

/-- One iteration of the inner loop: if the folder name contains the
ticket number, attempt `shutil.move`; `moveOk` says whether the move
succeeds — on failure the exception is caught and logged, the state is
unchanged. -/
def moveStep (moveOk : String → Bool) (ticket : String) (acc : MoveFs)
    (folder : String) : MoveFs :=
  if containsSub ticket.data folder.data then
    if moveOk folder then ⟨acc.source.erase folder, acc.dest ++ [folder]⟩
    else acc
  else acc

/-- The inner loop for one ticket number: iterate over the listing of the
source taken at loop entry (`os.listdir` snapshots). -/
def move_one_ticket (moveOk : String → Bool) (ticket : String)
    (st : MoveFs) : MoveFs :=
  st.source.foldl (moveStep moveOk ticket) st

/-- `api_utils.move_to_deletion_folder`: process each requested ticket
number in turn; every per-move failure is swallowed, so the function is
total. -/
def move_to_deletion_folder (moveOk : String → Bool)
    (tickets : List String) (st : MoveFs) : MoveFs :=
  tickets.foldl (fun acc t => move_one_ticket moveOk t acc) st

/-! ## Spec-side scanner, and concrete fixtures -/

/-- Modelled from the spec: the ticket-id pattern of §4.1 — "3 uppercase
letters followed by exactly 7 digits" — matches at the head of `cs`.
(The source instead compiles the literal pattern `TKT\d{7}`.) -/
def isTicketAtSpec (cs : List Char) : Bool :=
  ((cs.take 3).length == 3 && (cs.take 3).all Char.isUpper)
    && (((cs.drop 3).take 7).length == 7 && ((cs.drop 3).take 7).all Char.isDigit)

/-- Modelled from the spec: leftmost match of the spec's ticket-id
pattern. -/
def searchTicketSpec : List Char → Option String
  | [] => none
  | c :: cs =>
    if isTicketAtSpec (c :: cs) then some (String.mk ((c :: cs).take 10))
    else searchTicketSpec cs

/-- Modelled from the spec: the scanner of §4.1 with the spec's
"3 uppercase letters" pattern, to be compared with
`scan_directory_for_tickets`. -/
def scan_directory_for_tickets_spec (dir : List FsEntry) : List String :=
  dir.filterMap (fun e => if e.isDir then searchTicketSpec e.name.data else none)

/-- The shape of a code-extracted ticket id: ten characters, the literal
prefix `TKT`, then seven digits. -/
def isTicketString (s : String) : Bool :=
  s.data.length == 10 && ['T', 'K', 'T'].isPrefixOf s.data
    && (s.data.drop 3).all Char.isDigit

/-- Fixture: a remote whose primary lookup succeeds with one item that has
no closure time, and whose secondary lookups both fail with status 500. -/
def remoteOkAbsent : Remote :=
  ⟨⟨200, [⟨"sid", ClosedAt.absent, none, none⟩]⟩, fun _ => ⟨500, []⟩, ⟨500, []⟩⟩

/-- Fixture: two distinct backup folders whose names both contain the same
ticket id, all folders empty. -/
def fsTwoCopies : Fs := ⟨["TKT0000001-old", "TKT0000001-copy"], fun _ => []⟩

/-- Fixture: a single backup folder, empty. -/
def fsOne : Fs := ⟨["TKT0000001-old"], fun _ => []⟩

/-- Fixture: a single backup folder holding one readable 2048-byte file. -/
def fs2048 : Fs := ⟨["TKT0000001-old"], fun _ => [⟨2048, true⟩]⟩

/-- Fixture: only ticket `TKT0000002` has a backup folder. -/
def fsOnlySecond : Fs := ⟨["TKT0000002-b"], fun _ => []⟩

/-- Fixture: an empty backups location. -/
def fsEmpty : Fs := ⟨[], fun _ => []⟩

/-- Fixture: a scanned directory holding folders for two tickets. -/
def dirC2 : List FsEntry := [⟨"TKT0000001-a", true⟩, ⟨"TKT0000002-b", true⟩]

/-- Fixture: a scanned directory with two folders for the same ticket. -/
def dirDup : List FsEntry := [⟨"TKT0000001-old", true⟩, ⟨"TKT0000001-copy", true⟩]

/-- The record `fetch_ticket_info` builds from `remoteOkAbsent` over
`fsTwoCopies` (or `fsOne`). -/
def infoDup : TicketInfo :=
  ⟨"TKT0000001", "sid", none, "N/A", false, false, some "0.00 B",
    "https://inst/nav_to.do?uri=sc_req_item.do?sys_id=sid"⟩

/-- The record `fetch_ticket_info` builds from `remoteOkAbsent` over
`fs2048`. -/
def info2048 : TicketInfo :=
  ⟨"TKT0000001", "sid", none, "N/A", false, false, some "2.00 KiB",
    "https://inst/nav_to.do?uri=sc_req_item.do?sys_id=sid"⟩

end CBM

namespace CBM

/-! ## Helper lemmas -/

theorem containsSub_of_isPre {needle hay : List Char}
    (h : needle.isPrefixOf hay = true) : containsSub needle hay = true := by
  cases hay with
  | nil =>
      cases needle with
      | nil => rfl
      | cons c cs => simp at h
  | cons c t => simp [containsSub, h]

theorem containsSub_cons {needle : List Char} {c : Char} {t : List Char}
    (h : containsSub needle t = true) : containsSub needle (c :: t) = true := by
  simp [containsSub, h]

theorem ticketAt_some {cs : List Char} {s : String}
    (h : ticketAt cs = some s) :
    isTicketString s = true ∧ s.data.isPrefixOf cs = true := by
  unfold ticketAt at h
  split at h
  case isTrue hm =>
    cases h
    have hm' := hm
    simp only [isTicketAt, Bool.and_eq_true, beq_iff_eq] at hm'
    obtain ⟨⟨hpre, hlen⟩, hdig⟩ := hm'
    have hlen10 : cs.length ≥ 10 := by
      simp only [List.length_take, List.length_drop] at hlen
      omega
    constructor
    · simp only [isTicketString, Bool.and_eq_true, beq_iff_eq]
      refine ⟨⟨?_, ?_⟩, ?_⟩
      · show (cs.take 10).length = 10
        simp [List.length_take]
        omega
      · show ['T', 'K', 'T'].isPrefixOf ((String.mk (cs.take 10)).data) = true
        rw [ List.isPrefixOf_iff_prefix, List.prefix_iff_eq_take]
        show ['T', 'K', 'T'] = ((cs.take 10).take 3)
        rw [List.take_take]
        rw [ List.isPrefixOf_iff_prefix, List.prefix_iff_eq_take] at hpre
        simpa using hpre
      · show ((cs.take 10).drop 3).all Char.isDigit = true
        have : (cs.take 10).drop 3 = (cs.drop 3).take 7 := by
          rw [List.take_drop]
        rw [this]
        exact hdig
    · exact Iff.mpr List.isPrefixOf_iff_prefix ( List.take_prefix 10 cs)
  case isFalse => cases h

theorem format2_natCast (n : Nat) :
    format2 (n : ℚ) = toString n ++ "." ++ pad2 0 := by
  unfold format2
  have hc : (round ((n : ℚ) * 100) : Int).toNat = 100 * n := by
    have h1 : ((n : ℚ) * 100) = ((100 * n : ℕ) : ℚ) := by push_cast; ring
    rw [h1, round_natCast]
    omega
  rw [hc]
  have h1 : 100 * n / 100 = n := by omega
  have h2 : 100 * n % 100 = 0 := by omega
  rw [h1, h2]

theorem hrs_aux_small (us : List String) (u : String) (n : Nat)
    (h : n < 1024) :
    human_readable_size_aux (u :: us) (n : ℚ)
      = some (toString n ++ "." ++ pad2 0 ++ " " ++ u) := by
  unfold human_readable_size_aux
  rw [if_pos (by exact_mod_cast h), format2_natCast]

theorem human_readable_size_zero : human_readable_size 0 = some "0.00 B" := by
  unfold human_readable_size humanUnits
  rw [hrs_aux_small _ "B" 0 (by norm_num)]
  decide

theorem human_readable_size_2048 :
    human_readable_size 2048 = some "2.00 KiB" := by
  unfold human_readable_size humanUnits human_readable_size_aux
  rw [if_neg (by norm_num)]
  have h : ((2048 : ℕ) : ℚ) / 1024 = ((2 : ℕ) : ℚ) := by norm_num
  rw [h, hrs_aux_small _ "KiB" 2 (by norm_num)]
  decide

theorem find_matching_folders_error {backups : List String} {t : String}
    (h : ∀ f ∈ backups, containsSub t.data f.data = false) :
    find_matching_folders backups t = Except.error PyError.indexError := by
  unfold find_matching_folders
  have : backups.filter (fun f => containsSub t.data f.data) = [] := by
    rw [List.filter_eq_nil_iff]
    intro a ha
    simp [h a ha]
  rw [this]

theorem fetch_none_of_primary {instanceHost : String} {r : Remote} {fs : Fs}
    {now : Int} {t : String}
    (h : r.itemResp.status ≠ 200 ∨ r.itemResp.result = []) :
    fetch_ticket_info instanceHost r fs now t = Except.ok none := by
  unfold fetch_ticket_info
  rcases h with h | h
  · simp [h]
  · simp [h]

theorem fetch_success {instanceHost : String} {r : Remote} {fs : Fs} {now : Int}
    {t : String} {item : ItemRec} {rest : List ItemRec} {folder : String}
    (hst : r.itemResp.status = 200) (hres : r.itemResp.result = item :: rest)
    (hfind : find_matching_folders fs.backups t = Except.ok folder) :
    fetch_ticket_info instanceHost r fs now t = Except.ok (some
      ⟨t, item.sys_id,
       (match item.closed_at with | ClosedAt.time u => some u | _ => none),
       fetch_username_info (r.userResp
         (if item.active == some "false" then item.closed_by_value.getD "N/A"
          else "N/A")),
       fetch_label_info r.labelResp,
       ready_for_deletion
         (match item.closed_at with | ClosedAt.time u => some u | _ => none)
         (fetch_label_info r.labelResp) now,
       human_readable_size (get_folder_size (fs.files folder)),
       "https://" ++ instanceHost ++ "/nav_to.do?uri=sc_req_item.do?sys_id="
         ++ item.sys_id⟩) := by
  simp [fetch_ticket_info, hst, hres, hfind]

theorem fetch_ok_some_inv {instanceHost : String} {r : Remote} {fs : Fs}
    {now : Int} {t : String} {i : TicketInfo}
    (h : fetch_ticket_info instanceHost r fs now t = Except.ok (some i)) :
    i.ticket_number = t ∧ ∃ folder,
      find_matching_folders fs.backups t = Except.ok folder ∧
      i.folder_size = human_readable_size (get_folder_size (fs.files folder)) := by
  unfold fetch_ticket_info at h
  by_cases hst : (r.itemResp.status == 200) = true
  · rw [if_pos hst] at h
    cases hres : r.itemResp.result with
    | nil => rw [hres] at h; simp at h
    | cons item rest =>
        rw [hres] at h
        cases hfind : find_matching_folders fs.backups t with
        | error e =>
            rw [hfind] at h
            simp at h
        | ok folder =>
            rw [hfind] at h
            simp only [Except.ok.injEq, Option.some.injEq] at h
            subst h
            exact ⟨rfl, folder, rfl, rfl⟩
  · rw [if_neg hst] at h
    simp at h

theorem fetch_error_of_no_folder {instanceHost : String} {r : Remote} {fs : Fs}
    {now : Int} {t : String}
    (hst : r.itemResp.status = 200) (hres : r.itemResp.result ≠ [])
    (hnone : ∀ f ∈ fs.backups, containsSub t.data f.data = false) :
    fetch_ticket_info instanceHost r fs now t
      = Except.error PyError.indexError := by
  unfold fetch_ticket_info
  rw [if_pos (by simp [hst])]
  cases hres2 : r.itemResp.result with
  | nil => exact absurd hres2 hres
  | cons item rest =>
      simp only [find_matching_folders_error hnone]

theorem run_tasks_exited {fetch : String → Except PyError (Option TicketInfo)} :
    ∀ {ts : List String} {t : String}, t ∈ ts → isFatal (fetch t) = true →
    run_tasks fetch ts = CycleResult.exited := by
  intro ts
  induction ts with
  | nil => intro t h; cases h
  | cons a ts ih =>
      intro t hmem hf
      unfold run_tasks
      cases hmem with
      | head =>
          cases hfa : fetch a with
          | error e => rfl
          | ok v => rw [hfa] at hf; simp [isFatal] at hf
      | tail _ hmem2 =>
          cases hfa : fetch a with
          | error e => rfl
          | ok v =>
              cases v with
              | none => exact ih hmem2 hf
              | some info => rw [ih hmem2 hf]

theorem fetch_eval_2048 :
    fetch_ticket_info "inst" remoteOkAbsent fs2048 0 "TKT0000001"
      = Except.ok (some info2048) := by
  have hst : remoteOkAbsent.itemResp.status = 200 := rfl
  have hres : remoteOkAbsent.itemResp.result
      = [⟨"sid", ClosedAt.absent, none, none⟩] := rfl
  have hfind : find_matching_folders fs2048.backups "TKT0000001"
      = Except.ok "TKT0000001-old" := rfl
  rw [@fetch_success "inst" remoteOkAbsent fs2048 0 "TKT0000001"
    ⟨"sid", ClosedAt.absent, none, none⟩ [] "TKT0000001-old" hst hres hfind]
  have hg : get_folder_size (fs2048.files "TKT0000001-old") = 2048 := rfl
  rw [hg, human_readable_size_2048]
  rfl

theorem fetch_eval_dup :
    fetch_ticket_info "inst" remoteOkAbsent fsTwoCopies 0 "TKT0000001"
      = Except.ok (some infoDup) := by
  have hst : remoteOkAbsent.itemResp.status = 200 := rfl
  have hres : remoteOkAbsent.itemResp.result
      = [⟨"sid", ClosedAt.absent, none, none⟩] := rfl
  have hfind : find_matching_folders fsTwoCopies.backups "TKT0000001"
      = Except.ok "TKT0000001-old" := rfl
  rw [@fetch_success "inst" remoteOkAbsent fsTwoCopies 0 "TKT0000001"
    ⟨"sid", ClosedAt.absent, none, none⟩ [] "TKT0000001-old" hst hres hfind]
  have hg : get_folder_size (fsTwoCopies.files "TKT0000001-old") = 0 := rfl
  rw [hg, human_readable_size_zero]
  rfl

theorem run_tasks_ok_of {fetch : String → Except PyError (Option TicketInfo)} :
    ∀ {ts : List String}, (∀ t ∈ ts, isFatal (fetch t) = false) →
    run_tasks fetch ts
      = CycleResult.ok (ts.filterMap (fun t => ((fetch t).toOption).join)) := by
  intro ts
  induction ts with
  | nil => intro h; rfl
  | cons a ts ih =>
      intro h
      have ha := h a (List.mem_cons_self a ts)
      have hrest := ih (fun t ht => h t (List.mem_cons_of_mem a ht))
      unfold run_tasks
      cases hfa : fetch a with
      | error e => rw [hfa] at ha; simp [isFatal] at ha
      | ok v =>
          cases v with
          | none =>
              rw [hrest]
              simp [List.filterMap_cons, hfa, Except.toOption]
          | some info =>
              rw [hrest]
              simp [List.filterMap_cons, hfa, Except.toOption]

theorem run_tasks_ok_inv {fetch : String → Except PyError (Option TicketInfo)} :
    ∀ {ts : List String} {l : List TicketInfo},
    run_tasks fetch ts = CycleResult.ok l →
    (∀ i ∈ l, ∃ t ∈ ts, fetch t = Except.ok (some i)) ∧
      l.length ≤ ts.length := by
  intro ts
  induction ts with
  | nil =>
      intro l h
      unfold run_tasks at h
      cases h
      exact ⟨fun i hi => absurd hi (List.not_mem_nil i), by simp⟩
  | cons a ts ih =>
      intro l h
      unfold run_tasks at h
      cases hfa : fetch a with
      | error e => rw [hfa] at h; simp at h
      | ok v =>
          rw [hfa] at h
          cases v with
          | none =>
              simp only at h
              obtain ⟨hm, hlen⟩ := ih h
              refine ⟨?_, Nat.le_succ_of_le hlen⟩
              intro i hi
              obtain ⟨t, ht, he⟩ := hm i hi
              exact ⟨t, List.mem_cons_of_mem a ht, he⟩
          | some info =>
              cases hrun : run_tasks fetch ts with
              | exited => rw [hrun] at h; simp at h
              | ok rest =>
                  rw [hrun] at h
                  simp only [CycleResult.ok.injEq] at h
                  subst h
                  obtain ⟨hm, hlen⟩ := ih hrun
                  constructor
                  · intro i hi
                    rcases List.mem_cons.mp hi with h1 | h2
                    · exact ⟨a, List.mem_cons_self a ts,
                        by rw [h1]; exact hfa⟩
                    · obtain ⟨t, ht, he⟩ := hm i h2
                      exact ⟨t, List.mem_cons_of_mem a ht, he⟩
                  · simpa using Nat.succ_le_succ hlen

theorem load_eval_dup :
    load_tickets "inst" (fun _ => remoteOkAbsent) fsTwoCopies 0 dirDup
      = CycleResult.ok [infoDup, infoDup] := by
  have hf : fetchFor "inst" (fun _ => remoteOkAbsent) fsTwoCopies 0 "TKT0000001"
      = Except.ok (some infoDup) := fetch_eval_dup
  unfold load_tickets
  rw [show scan_directory_for_tickets dirDup = ["TKT0000001", "TKT0000001"]
    from rfl]
  simp only [run_tasks, hf]

theorem moveStep_skip {moveOk : String → Bool} {ticket : String} :
    ∀ {l : List String} {acc : MoveFs},
    (∀ f ∈ l, containsSub ticket.data f.data = true → moveOk f = false) →
    List.foldl (moveStep moveOk ticket) acc l = acc := by
  intro l
  induction l with
  | nil => intro acc h; rfl
  | cons f l ih =>
      intro acc h
      have hf : moveStep moveOk ticket acc f = acc := by
        unfold moveStep
        by_cases hc : containsSub ticket.data f.data = true
        · rw [if_pos hc,
            if_neg (by simp [h f (List.mem_cons_self f l) hc])]
        · rw [if_neg hc]
      rw [List.foldl_cons, hf]
      exact ih (fun g hg hcg => h g (List.mem_cons_of_mem f hg) hcg)

theorem move_one_noop {moveOk : String → Bool} {ticket : String} {st : MoveFs}
    (h : ∀ f ∈ st.source,
      containsSub ticket.data f.data = true → moveOk f = false) :
    move_one_ticket moveOk ticket st = st :=
  moveStep_skip h

theorem fold_move_split {moveOk : String → Bool} {ticket : String} :
    ∀ (l pre dest0 : List String),
    (∀ f ∈ l, containsSub ticket.data f.data = true → moveOk f = true) →
    (pre ++ l).Nodup →
    List.foldl (moveStep moveOk ticket) ⟨pre ++ l, dest0⟩ l
      = ⟨pre ++ l.filter (fun f => !(containsSub ticket.data f.data)),
         dest0 ++ l.filter (fun f => containsSub ticket.data f.data)⟩ := by
  intro l
  induction l with
  | nil => intro pre dest0 hok hnd; simp
  | cons f l ih =>
      intro pre dest0 hok hnd
      rw [List.foldl_cons]
      by_cases hc : containsSub ticket.data f.data = true
      · have hokf := hok f (List.mem_cons_self f l) hc
        have hnotpre : f ∉ pre := by
          intro hmem
          exact (List.nodup_append.mp hnd).2.2 hmem (List.mem_cons_self f l)
        have hstep : moveStep moveOk ticket ⟨pre ++ f :: l, dest0⟩ f
            = ⟨pre ++ l, dest0 ++ [f]⟩ := by
          unfold moveStep
          rw [if_pos hc, if_pos hokf]
          show (⟨(pre ++ f :: l).erase f, dest0 ++ [f]⟩ : MoveFs) = _
          rw [List.erase_append_right _ hnotpre, List.erase_cons_head]
        have hnd' : (pre ++ l).Nodup :=
          List.Nodup.sublist
            (List.Sublist.append_left (List.sublist_cons_self f l) pre) hnd
        rw [hstep, ih pre (dest0 ++ [f])
          (fun g hg hcg => hok g (List.mem_cons_of_mem f hg) hcg) hnd']
        simp [hc, List.filter_cons]
      · have hstep : moveStep moveOk ticket ⟨pre ++ f :: l, dest0⟩ f
            = ⟨pre ++ f :: l, dest0⟩ := by
          unfold moveStep
          rw [if_neg hc]
        have hre : pre ++ f :: l = (pre ++ [f]) ++ l := by simp
        rw [hstep]
        rw [show (⟨pre ++ f :: l, dest0⟩ : MoveFs)
          = ⟨(pre ++ [f]) ++ l, dest0⟩ from by rw [hre]]
        rw [ih (pre ++ [f]) dest0
          (fun g hg hcg => hok g (List.mem_cons_of_mem f hg) hcg)
          (by rw [← hre]; exact hnd)]
        simp [hc, List.filter_cons]

theorem move_one_spec {moveOk : String → Bool} {ticket : String} {st : MoveFs}
    (hnd : st.source.Nodup)
    (hok : ∀ f ∈ st.source,
      containsSub ticket.data f.data = true → moveOk f = true) :
    move_one_ticket moveOk ticket st
      = ⟨st.source.filter (fun f => !(containsSub ticket.data f.data)),
         st.dest ++ st.source.filter
           (fun f => containsSub ticket.data f.data)⟩ := by
  have h := fold_move_split st.source [] st.dest hok (by simpa using hnd)
  simpa [move_one_ticket] using h

theorem searchTicket_sound : ∀ {cs : List Char} {s : String},
    searchTicket cs = some s →
    isTicketString s = true ∧ containsSub s.data cs = true := by
  intro cs
  induction cs with
  | nil => intro s h; cases h
  | cons c t ih =>
    intro s h
    unfold searchTicket at h
    cases hm : ticketAt (c :: t) with
    | some u =>
        rw [hm] at h
        cases h
        have := ticketAt_some hm
        exact ⟨this.1, containsSub_of_isPre this.2⟩
    | none =>
        rw [hm] at h
        have := ih h
        exact ⟨this.1, containsSub_cons this.2⟩

end CBM

namespace CBM

/-- C1: the retention verdict is exactly: closure time present AND age
strictly greater than 14 days AND no retention tag; a ticket closed
exactly 14 days ago is not ready, one closed 14 days + 1 second ago with
no tag is ready, an absent closure time forces false, and a set tag
forces false. -/
theorem C1_retention_verdict :
    (∀ (c : Option Int) (h : Bool) (n : Int),
        ready_for_deletion c h n = true ↔
          (∃ t, c = some t ∧ n - t > twoWeeksSeconds) ∧ h = false) ∧
    (∀ (t : Int) (h : Bool), ready_for_deletion (some t) h (t + 14 * 86400) = false) ∧
    (∀ (t : Int), ready_for_deletion (some t) false (t + 14 * 86400 + 1) = true) ∧
    (∀ (h : Bool) (n : Int), ready_for_deletion none h n = false) ∧
    (∀ (c : Option Int) (n : Int), ready_for_deletion c true n = false) := by
  refine ⟨?_, ?_, ?_, ?_, ?_⟩
  · intro c h n
    cases c with
    | none =>
        simp [ready_for_deletion]
    | some t =>
        simp only [ready_for_deletion, Bool.and_eq_true, Bool.not_eq_true']
        constructor
        · rintro ⟨hgt, htag⟩
          exact ⟨⟨t, rfl, by simpa using hgt⟩, htag⟩
        · rintro ⟨⟨u, hu, hgt⟩, htag⟩
          cases hu
          exact ⟨by simpa using hgt, htag⟩
  · intro t h
    simp [ready_for_deletion, twoWeeksSeconds]
  · intro t
    simp [ready_for_deletion, twoWeeksSeconds]
    omega
  · intro h n
    simp [ready_for_deletion]
  · intro c n
    cases c <;> simp [ready_for_deletion]

/-- C1 witness: a ticket closed 14 days + 1 second before now with no tag
is ready; a tagged ticket never is. -/
theorem C1_retention_verdict_witness :
    ready_for_deletion (some 0) false (14 * 86400 + 1) = true ∧
    ready_for_deletion (some 0) true (10 ^ 9) = false :=
  ⟨C1_retention_verdict.2.2.1 0,
   C1_retention_verdict.2.2.2.2 (some 0) (10 ^ 9)⟩

/-- C4 counterexample: the code's compiled pattern is the literal
`TKT\d{7}`, not "3 uppercase letters followed by exactly 7 digits": the
folder name `ABC1234567` matches the spec's pattern but the scanner
ignores it. -/
theorem C4_counterexample :
    scan_directory_for_tickets [⟨"ABC1234567", true⟩] = [] ∧
    scan_directory_for_tickets_spec [⟨"ABC1234567", true⟩] = ["ABC1234567"] := by
  constructor <;> decide

/-- C4 (amended): the scanner considers only immediate subdirectory
names, applies the pattern of the LITERAL `TKT` followed by 7 digits,
extracts the first match when present, ignores names without a match; the
scenario folders yield exactly `TKT0000001` and `TKT0000002`.  Every
output is a well-shaped ticket id occurring inside some scanned
subdirectory's name. -/
theorem C4_scanner :
    scan_directory_for_tickets
        [⟨"TKT0000001-old", true⟩, ⟨"TKT0000002-new", true⟩, ⟨"random-folder", true⟩]
      = ["TKT0000001", "TKT0000002"] ∧
    (∀ (dir : List FsEntry) (s : String), s ∈ scan_directory_for_tickets dir →
      isTicketString s = true ∧
        ∃ e ∈ dir, e.isDir = true ∧ containsSub s.data e.name.data = true) := by
  constructor
  · decide
  · intro dir s hs
    simp only [scan_directory_for_tickets, List.mem_filterMap] at hs
    obtain ⟨e, he, hmatch⟩ := hs
    by_cases hd : e.isDir = true
    · rw [if_pos hd] at hmatch
      have := searchTicket_sound hmatch
      exact ⟨this.1, e, he, hd, this.2⟩
    · rw [if_neg hd] at hmatch
      cases hmatch

/-- C2 counterexample: two tickets are scanned; the fetch for
`TKT0000001` raises (its backup folder is missing) while the fetch for
`TKT0000002` would succeed — yet the whole cycle terminates via the
handler's `exit()` and no result set at all is produced, instead of a
result set missing only the failed ticket. -/
theorem C2_counterexample :
    load_tickets "inst" (fun _ => remoteOkAbsent) fsOnlySecond 0 dirC2
      = CycleResult.exited ∧
    isFatal (fetchFor "inst" (fun _ => remoteOkAbsent) fsOnlySecond 0
      "TKT0000002") = false := by
  constructor
  · unfold load_tickets
    exact @run_tasks_exited _ _ "TKT0000001" (by decide) rfl
  · rfl

/-- C2 (amended): a raised exception in one ticket's fetch is caught at
that ticket's task boundary, but the handler terminates the process, so
any fatal per-ticket failure aborts the entire evaluation cycle; only
when no fetch raises does the cycle deliver the records, each fetch that
returned no record being silently excluded. -/
theorem C2_task_boundary :
    ∀ (instanceHost : String) (remote : String → Remote) (fs : Fs) (now : Int)
      (dir : List FsEntry),
      ((∃ t ∈ scan_directory_for_tickets dir,
          isFatal (fetchFor instanceHost remote fs now t) = true) →
        load_tickets instanceHost remote fs now dir = CycleResult.exited) ∧
      ((∀ t ∈ scan_directory_for_tickets dir,
          isFatal (fetchFor instanceHost remote fs now t) = false) →
        load_tickets instanceHost remote fs now dir
          = CycleResult.ok ((scan_directory_for_tickets dir).filterMap
              (fun t =>
                ((fetchFor instanceHost remote fs now t).toOption).join))) := by
  intro instanceHost remote fs now dir
  constructor
  · rintro ⟨t, ht, hf⟩
    exact run_tasks_exited ht hf
  · intro h
    exact run_tasks_ok_of h

/-- C2 witness: the fatal fetch of `TKT0000001` exits the whole cycle. -/
theorem C2_task_boundary_witness :
    load_tickets "inst" (fun _ => remoteOkAbsent) fsOnlySecond 0 dirC2
      = CycleResult.exited :=
  (C2_task_boundary "inst" (fun _ => remoteOkAbsent) fsOnlySecond 0 dirC2).1
    ⟨"TKT0000001", by decide, rfl⟩

/-- C3 counterexample: the scanner does not deduplicate — two folders
containing the same ticket id make the cycle return two records with the
same `ticket_number`, refuting "at most one record per distinct id". -/
theorem C3_counterexample :
    load_tickets "inst" (fun _ => remoteOkAbsent) fsTwoCopies 0 dirDup
      = CycleResult.ok [infoDup, infoDup] ∧
    infoDup.ticket_number = "TKT0000001" ∧
    ¬ ([infoDup, infoDup].map TicketInfo.ticket_number).Nodup :=
  ⟨load_eval_dup, rfl, by decide⟩

/-- C3 (amended): the cycle returns one record per resolved element of
the scanner's output list (so the same distinct id can repeat when
several folders contain it), every record's ticket id is among the
scanner's output, and no more records than scanned ids are returned. -/
theorem C3_records_from_scan :
    ∀ (instanceHost : String) (remote : String → Remote) (fs : Fs) (now : Int)
      (dir : List FsEntry) (l : List TicketInfo),
      load_tickets instanceHost remote fs now dir = CycleResult.ok l →
      (∀ i ∈ l, i.ticket_number ∈ scan_directory_for_tickets dir) ∧
      l.length ≤ (scan_directory_for_tickets dir).length := by
  intro instanceHost remote fs now dir l h
  unfold load_tickets at h
  obtain ⟨hm, hlen⟩ := run_tasks_ok_inv h
  refine ⟨?_, hlen⟩
  intro i hi
  obtain ⟨t, ht, he⟩ := hm i hi
  have he2 : fetch_ticket_info instanceHost (remote t) fs now t
      = Except.ok (some i) := he
  have : i.ticket_number = t := (fetch_ok_some_inv he2).1
  rw [this]
  exact ht

/-- C3 witness: in the duplicated-folder run, both returned records carry
a scanned ticket id and no more records than scanned ids exist. -/
theorem C3_records_from_scan_witness :
    infoDup.ticket_number ∈ scan_directory_for_tickets dirDup ∧
    ([infoDup, infoDup] : List TicketInfo).length
      ≤ (scan_directory_for_tickets dirDup).length :=
  ⟨(C3_records_from_scan "inst" (fun _ => remoteOkAbsent) fsTwoCopies 0 dirDup
      [infoDup, infoDup] load_eval_dup).1 infoDup (by simp),
   (C3_records_from_scan "inst" (fun _ => remoteOkAbsent) fsTwoCopies 0 dirDup
      [infoDup, infoDup] load_eval_dup).2⟩

/-- C5: a non-success HTTP status or an empty result on the primary item
query makes `fetch_ticket_info` yield no record (`None`) for that ticket,
without raising. -/
theorem C5_primary_failure_drops :
    ∀ (instanceHost : String) (r : Remote) (fs : Fs) (now : Int) (t : String),
      r.itemResp.status ≠ 200 ∨ r.itemResp.result = [] →
      fetch_ticket_info instanceHost r fs now t = Except.ok none := by
  intro instanceHost r fs now t h
  exact fetch_none_of_primary h

/-- C5 witness: a 404 on the primary query yields `None`. -/
theorem C5_primary_failure_drops_witness :
    fetch_ticket_info "inst" ⟨⟨404, []⟩, fun _ => ⟨500, []⟩, ⟨500, []⟩⟩
      fsEmpty 0 "TKT0000001" = Except.ok none :=
  C5_primary_failure_drops "inst" ⟨⟨404, []⟩, fun _ => ⟨500, []⟩, ⟨500, []⟩⟩
    fsEmpty 0 "TKT0000001" (Or.inl (by decide))

/-- C6: when the primary item query succeeds (and the folder lookup does
not raise), a non-success status on the username lookup makes the closer
the `"N/A"` sentinel and a non-success status on the label lookup makes
the retention tag false — the ticket is still returned. -/
theorem C6_secondary_degrade :
    ∀ (instanceHost : String) (r : Remote) (fs : Fs) (now : Int) (t : String)
      (item : ItemRec) (rest : List ItemRec) (folder : String),
      r.itemResp.status = 200 →
      r.itemResp.result = item :: rest →
      find_matching_folders fs.backups t = Except.ok folder →
      (∀ uid, (r.userResp uid).status ≠ 200) →
      r.labelResp.status ≠ 200 →
      ∃ info, fetch_ticket_info instanceHost r fs now t
          = Except.ok (some info) ∧
        info.closed_by_username = "N/A" ∧
        info.has_ready_for_pickup_tag = false := by
  intro instanceHost r fs now t item rest folder hst hres hfind huser hlabel
  refine ⟨_, fetch_success hst hres hfind, ?_, ?_⟩
  · simp [fetch_username_info, huser _]
  · simp [fetch_label_info, hlabel]

/-- C6 witness: both secondary lookups fail with 500; the ticket is
returned with the sentinel closer and no tag. -/
theorem C6_secondary_degrade_witness :
    ∃ info, fetch_ticket_info "inst" remoteOkAbsent fsOne 0 "TKT0000001"
        = Except.ok (some info) ∧
      info.closed_by_username = "N/A" ∧
      info.has_ready_for_pickup_tag = false := by
  refine C6_secondary_degrade "inst" remoteOkAbsent fsOne 0 "TKT0000001"
    ⟨"sid", ClosedAt.absent, none, none⟩ [] "TKT0000001-old" rfl rfl rfl ?_ ?_
  · intro uid h
    simp [remoteOkAbsent] at h
  · intro h
    simp [remoteOkAbsent] at h

/-- C9 counterexample: the record's size field is the human-readable
string `"2.00 KiB"`, not the unsigned byte count 2048 the claim
describes. -/
theorem C9_counterexample :
    fetch_ticket_info "inst" remoteOkAbsent fs2048 0 "TKT0000001"
      = Except.ok (some info2048) ∧
    info2048.folder_size = some "2.00 KiB" ∧
    get_folder_size (fs2048.files "TKT0000001-old") = 2048 ∧
    some "2.00 KiB" ≠ some (toString 2048) :=
  ⟨fetch_eval_2048, rfl, rfl, by decide⟩

/-- C9 (amended): every returned record carries the folder's size
formatted by `human_readable_size` over the walked byte total of the
first matching folder — a unit-scaled display string, not a raw
`folder_size_bytes` integer. -/
theorem C9_folder_size_field :
    ∀ (instanceHost : String) (r : Remote) (fs : Fs) (now : Int) (t : String)
      (info : TicketInfo),
      fetch_ticket_info instanceHost r fs now t = Except.ok (some info) →
      ∃ folder, find_matching_folders fs.backups t = Except.ok folder ∧
        info.folder_size
          = human_readable_size (get_folder_size (fs.files folder)) := by
  intro instanceHost r fs now t info h
  exact (fetch_ok_some_inv h).2

/-- C9 witness: the 2048-byte folder's record holds
`human_readable_size 2048`. -/
theorem C9_folder_size_field_witness :
    ∃ folder,
      find_matching_folders fs2048.backups "TKT0000001" = Except.ok folder ∧
      info2048.folder_size
        = human_readable_size (get_folder_size (fs2048.files folder)) :=
  C9_folder_size_field "inst" remoteOkAbsent fs2048 0 "TKT0000001" info2048
    fetch_eval_2048

/-- C10: when no folder name under the configured backups location
contains the ticket id, `find_matching_folders` raises `IndexError`;
`fetch_ticket_info` — whose folder search reads the global
`BACKUPS_LOCATION` state `fs`, not the scanned directory — propagates it
whenever the primary query succeeded, and the whole cycle then exits for
any scanned directory that produced the id. -/
theorem C10_missing_folder :
    (∀ (backups : List String) (t : String),
       (∀ f ∈ backups, containsSub t.data f.data = false) →
       find_matching_folders backups t = Except.error PyError.indexError) ∧
    (∀ (instanceHost : String) (r : Remote) (fs : Fs) (now : Int) (t : String),
       r.itemResp.status = 200 → r.itemResp.result ≠ [] →
       (∀ f ∈ fs.backups, containsSub t.data f.data = false) →
       fetch_ticket_info instanceHost r fs now t
         = Except.error PyError.indexError) ∧
    (∀ (instanceHost : String) (remote : String → Remote) (fs : Fs) (now : Int)
       (dir : List FsEntry) (t : String),
       t ∈ scan_directory_for_tickets dir →
       (remote t).itemResp.status = 200 → (remote t).itemResp.result ≠ [] →
       (∀ f ∈ fs.backups, containsSub t.data f.data = false) →
       load_tickets instanceHost remote fs now dir = CycleResult.exited) := by
  refine ⟨?_, ?_, ?_⟩
  · intro backups t h
    exact find_matching_folders_error h
  · intro instanceHost r fs now t hst hres hnone
    exact fetch_error_of_no_folder hst hres hnone
  · intro instanceHost remote fs now dir t hmem hst hres hnone
    unfold load_tickets
    refine run_tasks_exited hmem ?_
    show isFatal (fetch_ticket_info instanceHost (remote t) fs now t) = true
    rw [fetch_error_of_no_folder hst hres hnone]
    rfl

/-- C10 witness: with an empty backups location, the folder lookup raises,
the fetch propagates, and the whole cycle over a directory containing the
ticket exits. -/
theorem C10_missing_folder_witness :
    find_matching_folders [] "TKT0000001" = Except.error PyError.indexError ∧
    fetch_ticket_info "inst" remoteOkAbsent fsEmpty 0 "TKT0000001"
      = Except.error PyError.indexError ∧
    load_tickets "inst" (fun _ => remoteOkAbsent) fsEmpty 0 dirC2
      = CycleResult.exited :=
  ⟨C10_missing_folder.1 [] "TKT0000001" (by intro f hf; simp at hf),
   C10_missing_folder.2.1 "inst" remoteOkAbsent fsEmpty 0 "TKT0000001" rfl
     (by decide) (by intro f hf; simp [fsEmpty] at hf),
   C10_missing_folder.2.2 "inst" (fun _ => remoteOkAbsent) fsEmpty 0 dirC2
     "TKT0000001" (by decide) rfl (by decide)
     (by intro f hf; simp [fsEmpty] at hf)⟩

/-- C7: the mover is best-effort and total: an id matching no source
folder leaves the whole on-disk state unchanged (and no exception
propagates — the model is a total function), and an id all of whose
moves fail leaves the state unchanged while the remaining batch still
runs. -/
theorem C7_move_best_effort :
    (∀ (moveOk : String → Bool) (t : String) (st : MoveFs),
       (∀ f ∈ st.source, containsSub t.data f.data = false) →
       move_to_deletion_folder moveOk [t] st = st) ∧
    (∀ (moveOk : String → Bool) (t : String) (ts : List String) (st : MoveFs),
       (∀ f ∈ st.source,
         containsSub t.data f.data = true → moveOk f = false) →
       move_to_deletion_folder moveOk (t :: ts) st
         = move_to_deletion_folder moveOk ts st) := by
  constructor
  · intro moveOk t st h
    show move_one_ticket moveOk t st = st
    exact move_one_noop (fun f hf hc => absurd hc (by simp [h f hf]))
  · intro moveOk t ts st h
    unfold move_to_deletion_folder
    simp only [List.foldl_cons]
    rw [move_one_noop h]

/-- C7 witness: moving an id with no matching folder changes nothing, and
a batch continues past an id whose only move fails. -/
theorem C7_move_best_effort_witness :
    move_to_deletion_folder (fun _ => false) ["TKT9999999"]
        ⟨["other"], []⟩ = ⟨["other"], []⟩ ∧
    move_to_deletion_folder (fun _ => false) ["TKT0000001", "TKT0000002"]
        ⟨["TKT0000001-a"], []⟩
      = move_to_deletion_folder (fun _ => false) ["TKT0000002"]
          ⟨["TKT0000001-a"], []⟩ :=
  ⟨C7_move_best_effort.1 (fun _ => false) "TKT9999999" ⟨["other"], []⟩
      (by decide),
   C7_move_best_effort.2 (fun _ => false) "TKT0000001" ["TKT0000002"]
      ⟨["TKT0000001-a"], []⟩ (by decide)⟩

/-- C8: when every matching move succeeds and the source listing has no
duplicate names, a batch move relocates exactly the folders whose names
contain a requested id: the new source listing is the old one minus those
folders, and the destination holds exactly its old folders plus the
matched ones, under the same names. -/
theorem C8_move_relocates :
    ∀ (moveOk : String → Bool) (tickets : List String) (st : MoveFs),
      st.source.Nodup →
      (∀ f ∈ st.source,
        (∃ t ∈ tickets, containsSub t.data f.data = true) → moveOk f = true) →
      (move_to_deletion_folder moveOk tickets st).source
          = st.source.filter
              (fun f => !(tickets.any (fun t => containsSub t.data f.data))) ∧
      (∀ f, f ∈ (move_to_deletion_folder moveOk tickets st).dest ↔
        f ∈ st.dest ∨ (f ∈ st.source ∧
          tickets.any (fun t => containsSub t.data f.data) = true)) := by
  intro moveOk tickets
  induction tickets with
  | nil =>
      intro st hnd hok
      constructor
      · simp [move_to_deletion_folder]
      · intro f
        simp [move_to_deletion_folder]
  | cons t ts ih =>
      intro st hnd hok
      have hokt : ∀ f ∈ st.source,
          containsSub t.data f.data = true → moveOk f = true :=
        fun f hf hc => hok f hf ⟨t, List.mem_cons_self t ts, hc⟩
      have hone := move_one_spec hnd hokt
      have hnd' : (move_one_ticket moveOk t st).source.Nodup := by
        rw [hone]
        exact hnd.filter _
      have hok' : ∀ f ∈ (move_one_ticket moveOk t st).source,
          (∃ u ∈ ts, containsSub u.data f.data = true) → moveOk f = true := by
        rintro f hf ⟨u, hu, hcu⟩
        rw [hone] at hf
        exact hok f (List.mem_filter.mp hf).1
          ⟨u, List.mem_cons_of_mem t hu, hcu⟩
      obtain ⟨ihs, ihd⟩ := ih (move_one_ticket moveOk t st) hnd' hok'
      have hstep : move_to_deletion_folder moveOk (t :: ts) st
          = move_to_deletion_folder moveOk ts (move_one_ticket moveOk t st) := by
        unfold move_to_deletion_folder
        simp only [List.foldl_cons]
      constructor
      · rw [hstep, ihs, hone]
        show (st.source.filter
            (fun f => !(containsSub t.data f.data))).filter
              (fun f => !(ts.any (fun u => containsSub u.data f.data))) = _
        rw [List.filter_filter]
        have hpred : ∀ f : String,
            (!(ts.any (fun u => containsSub u.data f.data))
              && !(containsSub t.data f.data))
            = !((t :: ts).any (fun u => containsSub u.data f.data)) := by
          intro f
          simp [List.any_cons, Bool.not_or, Bool.and_comm]
        exact List.filter_congr (fun f _ => hpred f)
      · intro f
        rw [hstep, ihd f, hone]
        simp only [List.mem_append, List.mem_filter, List.any_cons,
          Bool.not_eq_true]
        by_cases hcf : containsSub t.data f.data = true
        · simp [hcf]
        · simp only [Bool.not_eq_true] at hcf
          simp [hcf]

/-- C8 witness: moving the singleton batch `TKT0000001` from a source
holding its folder and one unrelated folder relocates exactly the
matching folder. -/
theorem C8_move_relocates_witness :
    (move_to_deletion_folder (fun _ => true) ["TKT0000001"]
        ⟨["TKT0000001-old", "other"], []⟩).source = ["other"] ∧
    "TKT0000001-old" ∈ (move_to_deletion_folder (fun _ => true)
        ["TKT0000001"] ⟨["TKT0000001-old", "other"], []⟩).dest := by
  have h := C8_move_relocates (fun _ => true) ["TKT0000001"]
    ⟨["TKT0000001-old", "other"], []⟩ (by decide) (fun f hf he => rfl)
  exact ⟨h.1.trans (by decide), (h.2 "TKT0000001-old").mpr
    (Or.inr ⟨by decide, by decide⟩)⟩

/-- C4 witness: the id extracted from `TKT0000001-old` is well-shaped and
occurs inside that folder's name. -/
theorem C4_scanner_witness :
    isTicketString "TKT0000001" = true ∧
    ∃ e ∈ ([⟨"TKT0000001-old", true⟩, ⟨"TKT0000002-new", true⟩,
        ⟨"random-folder", true⟩] : List FsEntry),
      e.isDir = true ∧ containsSub "TKT0000001".data e.name.data = true :=
  C4_scanner.2
    [⟨"TKT0000001-old", true⟩, ⟨"TKT0000002-new", true⟩, ⟨"random-folder", true⟩]
    "TKT0000001" (by decide)

end CBM
